import Mathlib

/-!
Shallow embedding of the share-accounting core of
`src/programs/dlmmvault/src/lib.rs` (Anchor program `meteora_sol_vault`).

Modelling conventions:
* `u64` fields and arguments are embedded as `ℕ`.  The source performs
  unchecked `+=` on `u64`; such additions are embedded with wrapping
  `% U64`, the rustc release-profile default (the repository carries no
  profile enabling overflow checks, and the program defines no overflow
  error).
* The source computes the share price with `f64` division
  (`total_sol as f64 / total_shares as f64`) and truncates the resulting
  quotient or product to `u64` with a saturating `as u64` cast.  Under
  exact real arithmetic, `trunc (amount / (total_sol / total_shares))`
  equals `⌊amount * total_shares / total_sol⌋` and
  `trunc (shares * (total_sol / total_shares))` equals
  `⌊shares * total_sol / total_shares⌋`, so those computations are
  embedded with `ℕ` floor division, saturated at `U64 - 1` for the cast.
  IEEE-754 double rounding itself is not modelled; every concrete input
  used in the theorems below keeps all intermediate `f64` values exactly
  representable (powers of two, or divisions with exact binary results).
* Account lookup, lamport transfers and the aggregator CPI stubs are
  external collaborators; an instruction that returns an error on Solana
  aborts the transaction with no state change, so the embedding returns
  `Except.error` carrying no state in those cases.
-/

/-- The `u64` modulus, `2 ^ 64`. -/
def U64 : ℕ := 2 ^ 64

/-- Mirrors the `VaultError` enum of the source (lines 240–250).  It has
exactly these four variants; in particular there is no `ArithmeticOverflow`,
`InvalidAmount` or `ZeroSharesMinted` variant. -/
inductive VaultError where
  | Unauthorized
  | InsufficientVaultBalance
  | InsufficientUserShares
  | NoVaultShares
deriving DecidableEq, Repr

/-- Mirrors the `VaultAccount` state struct (lines 218–230): admin key
(modelled as `ℕ`), total shares outstanding, liquid lamports, invested
lamports, and the PDA bump. -/
structure VaultAccount where
  admin : ℕ
  total_shares : ℕ
  total_sol : ℕ
  invested_amount : ℕ
  bump : ℕ
deriving DecidableEq, Repr

/-- Mirrors the `VaultUser` position struct (lines 232–236). -/
structure VaultUser where
  shares : ℕ
deriving DecidableEq, Repr

/-- Lines 44–49 of `deposit`: bootstrap (`total_sol == 0 || total_shares == 0`)
mints `amount` one-to-one; otherwise the source computes
`share_price = total_sol as f64 / total_shares as f64` and mints
`(amount as f64 / share_price) as u64`, embedded per the conventions above as
`⌊amount * total_shares / total_sol⌋` saturated at `U64 - 1`.  Note the
denominator is the liquid balance `total_sol` alone: `invested_amount` plays
no part in the source's price. -/
def sharesToMint (vault : VaultAccount) (amount : ℕ) : ℕ :=
  if vault.total_sol = 0 ∨ vault.total_shares = 0 then amount
  else min (amount * vault.total_shares / vault.total_sol) (U64 - 1)

/-- The `deposit` instruction (lines 27–56).  The lamport transfer into the
vault is an external collaborator assumed to succeed; the share computation
reads the `total_sol` field before it is credited, exactly as in the source.
The instruction has no `amount > 0` check and no minted-shares check, and it
never returns an error: it unconditionally applies the three `+=` updates
(wrapping, per the conventions above). -/
def deposit (vault : VaultAccount) (user : VaultUser) (amount : ℕ) :
    Except VaultError (VaultAccount × VaultUser) :=
  let minted := sharesToMint vault amount
  Except.ok
    ({ vault with
        total_sol := (vault.total_sol + amount) % U64,
        total_shares := (vault.total_shares + minted) % U64 },
     { shares := (user.shares + minted) % U64 })

/-- The `invest` instruction (lines 63–85): requires the signer to equal
`vault.admin` (`Unauthorized` otherwise), requires
`total_sol >= sol_to_invest` (`InsufficientVaultBalance` otherwise), then
moves `sol_to_invest` from the liquid balance into `invested_amount`
(the latter by an unchecked, wrapping `+=`).  The aggregator CPI is a stub
in the source; `pool_address` is otherwise unused. -/
def invest (vault : VaultAccount) (caller : ℕ) (pool_address : ℕ)
    (sol_to_invest : ℕ) : Except VaultError VaultAccount :=
  if vault.admin ≠ caller then Except.error VaultError.Unauthorized
  else if sol_to_invest ≤ vault.total_sol then
    Except.ok
      { vault with
          total_sol := vault.total_sol - sol_to_invest,
          invested_amount := (vault.invested_amount + sol_to_invest) % U64 }
  else Except.error VaultError.InsufficientVaultBalance

/-- The `finalize_strategy` instruction (lines 90–102): requires the signer
to equal `vault.admin`; the divest CPI is a stub, so `sol_received` is the
stored `invested_amount`, which is zeroed and added (unchecked, wrapping)
to the liquid balance. -/
def finalize_strategy (vault : VaultAccount) (caller : ℕ) :
    Except VaultError VaultAccount :=
  if vault.admin ≠ caller then Except.error VaultError.Unauthorized
  else
    let sol_received := vault.invested_amount
    Except.ok
      { vault with
          invested_amount := 0,
          total_sol := (vault.total_sol + sol_received) % U64 }

/-- The `withdraw` instruction (lines 105–142): requires
`user.shares >= shares_to_withdraw` (`InsufficientUserShares`), requires
`total_shares > 0` (`NoVaultShares`), computes
`sol_amount = (shares_to_withdraw as f64 * share_price) as u64` with
`share_price = total_sol as f64 / total_shares as f64` — embedded as
`⌊shares_to_withdraw * total_sol / total_shares⌋` saturated at `U64 - 1`;
`invested_amount` plays no part — requires `total_sol >= sol_amount`
(`InsufficientVaultBalance`), then debits the vault and the user and pays
`sol_amount` lamports out (the returned `ℕ`).  The `total_sol -= sol_amount`
and `user.shares -= shares_to_withdraw` subtractions are covered by the two
guards above, so plain `ℕ` subtraction is exact for them; the source's
`total_shares -= shares_to_withdraw` has no guard and wraps on `u64`
underflow, embedded as `(total_shares + U64 - shares_to_withdraw) % U64`
(wrapping subtraction for `u64`-ranged operands). -/
def withdraw (vault : VaultAccount) (user : VaultUser)
    (shares_to_withdraw : ℕ) : Except VaultError (VaultAccount × VaultUser × ℕ) :=
  if user.shares < shares_to_withdraw then
    Except.error VaultError.InsufficientUserShares
  else if vault.total_shares = 0 then Except.error VaultError.NoVaultShares
  else
    let sol_amount :=
      min (shares_to_withdraw * vault.total_sol / vault.total_shares) (U64 - 1)
    if vault.total_sol < sol_amount then
      Except.error VaultError.InsufficientVaultBalance
    else
      Except.ok
        ({ vault with
            total_sol := vault.total_sol - sol_amount,
            total_shares :=
              (vault.total_shares + U64 - shares_to_withdraw) % U64 },
         { shares := user.shares - shares_to_withdraw },
         sol_amount)

/-- Modelled from the spec (§4.1), for comparison with the source:
`shares_for_deposit` mints `amount` in the bootstrap case and otherwise
`floor(amount * total_shares / (total_liquid + invested))`, the invested
portion counted in the denominator, in exact integer arithmetic. -/
def spec_shares_for_deposit (total_shares total_liquid invested amount : ℕ) : ℕ :=
  if total_shares = 0 ∨ total_liquid + invested = 0 then amount
  else amount * total_shares / (total_liquid + invested)

/-- Modelled from the spec (§4.1), for comparison with the source:
`amount_for_withdrawal` owes
`floor(shares * (total_liquid + invested) / total_shares)`, the invested
portion counted in the numerator, in exact integer arithmetic. -/
def spec_amount_for_withdrawal (total_shares total_liquid invested shares : ℕ) : ℕ :=
  shares * (total_liquid + invested) / total_shares

/-- C1: the claim states a non-bootstrap deposit mints
`floor(amount * total_shares / (total_liquid + invested))` in exact integer
arithmetic.  On the vault `total_shares = 1024`, `total_sol = 1024`,
`invested_amount = 1024` a deposit of `1024` makes the source mint `1024`
shares (its `f64` price uses the liquid balance alone and every `f64` step
is exact here), while the spec's formula yields `512`. -/
theorem C1_deposit_ignores_invested :
    sharesToMint ⟨0, 1024, 1024, 1024, 0⟩ 1024 = 1024 ∧
    spec_shares_for_deposit 1024 1024 1024 1024 = 512 ∧
    (1024 : ℕ) ≠ 512 := by
  refine ⟨rfl, rfl, by decide⟩

/-- C2: the claim states a withdrawal of `s` shares pays
`floor(s * (total_liquid + invested) / total_shares)`.  On the vault
`total_shares = 2048`, `total_sol = 1024`, `invested_amount = 1024`,
withdrawing `1024` shares makes the source pay `512` (its `f64` price uses
the liquid balance alone and every `f64` step is exact here), while the
spec's formula yields `1024`. -/
theorem C2_withdraw_ignores_invested :
    withdraw ⟨0, 2048, 1024, 1024, 0⟩ ⟨1024⟩ 1024 =
      Except.ok (⟨0, 1024, 512, 1024, 0⟩, ⟨0⟩, 512) ∧
    spec_amount_for_withdrawal 2048 1024 1024 1024 = 1024 ∧
    (512 : ℕ) ≠ 1024 := by
  refine ⟨rfl, rfl, by decide⟩

/-- C3: the claim states a deposit whose arithmetic overflows `u64` fails
with `ArithmeticOverflow`, leaving the ledger unchanged.  The source has no
overflow check and `VaultError` has no such variant: depositing `2 ^ 63`
into the vault `total_shares = 2 ^ 63`, `total_sol = 2 ^ 63` returns `Ok`
and wraps both `total_sol` and `total_shares` to `0`. -/
theorem C3_deposit_overflow_wraps :
    deposit ⟨0, 2 ^ 63, 2 ^ 63, 0, 0⟩ ⟨0⟩ (2 ^ 63) =
      Except.ok (⟨0, 0, 0, 0, 0⟩, ⟨2 ^ 63⟩) := rfl

/-- C4: the claim states a non-bootstrap deposit that would mint `0` shares
fails with `ZeroSharesMinted`, changing nothing.  The source has no such
check: depositing `512` into the vault `total_shares = 1`,
`total_sol = 1024` mints `0` shares yet returns `Ok` and credits the vault
with the `512` lamports, donating them to existing holders. -/
theorem C4_dust_deposit_accepted :
    deposit ⟨0, 1, 1024, 0, 0⟩ ⟨0⟩ 512 =
      Except.ok (⟨0, 1, 1536, 0, 0⟩, ⟨0⟩) := rfl

/-- C5: the claim states `deposit` with `amount = 0` fails with
`InvalidAmount`.  The source has no `amount > 0` check and `VaultError` has
no such variant: a zero deposit returns `Ok` (the ledger happens to be
unchanged because zero is added everywhere). -/
theorem C5_zero_deposit_accepted :
    deposit ⟨0, 1000, 2000, 0, 0⟩ ⟨7⟩ 0 =
      Except.ok (⟨0, 1000, 2000, 0, 0⟩, ⟨7⟩) := rfl

/-- C6: `invest` called by any signer other than the vault's admin fails
with `Unauthorized` before touching any field (the returned error models
the aborted transaction, so `total_sol` and `invested_amount` are
unchanged). -/
theorem C6_unauthorized_invest (v : VaultAccount)
    (caller pool_address sol_to_invest : ℕ) (h : caller ≠ v.admin) :
    invest v caller pool_address sol_to_invest =
      Except.error VaultError.Unauthorized := by
  unfold invest
  rw [if_pos (Ne.symm h)]

/-- Witness for C6 at a concrete non-admin caller. -/
theorem C6_unauthorized_invest_witness :
    invest ⟨0, 1000, 2000, 0, 0⟩ 1 2 3 = Except.error VaultError.Unauthorized :=
  C6_unauthorized_invest ⟨0, 1000, 2000, 0, 0⟩ 1 2 3 (by decide)

/-- C8 (counterexample): the claim states every successful `invest` leaves
`total_sol + invested_amount` unchanged.  With `invested_amount = U64 - 1`,
`total_sol = 1`, the admin investing `1` succeeds and the unchecked `+=`
wraps `invested_amount` to `0`: the sum drops from `2 ^ 64` to `0`. -/
theorem C8_counterexample :
    invest ⟨0, 5, 1, U64 - 1, 0⟩ 0 0 1 = Except.ok ⟨0, 5, 0, 0, 0⟩ ∧
    (0 + 0 : ℕ) ≠ 1 + (U64 - 1) := by
  refine ⟨rfl, by decide⟩

/-- C8 (amended): a successful `invest` whose `invested_amount + sol_to_invest`
stays below `2 ^ 64`, and a successful `finalize_strategy` whose
`total_sol + invested_amount` stays below `2 ^ 64`, leave the sum
`total_sol + invested_amount` and `total_shares` unchanged (user positions
are not inputs of either instruction, so they are untouched as well). -/
theorem C8_amended_value_preservation (v v' : VaultAccount)
    (caller pool_address x : ℕ) :
    (invest v caller pool_address x = Except.ok v' →
      v.invested_amount + x < U64 →
      v'.total_sol + v'.invested_amount = v.total_sol + v.invested_amount ∧
      v'.total_shares = v.total_shares) ∧
    (finalize_strategy v caller = Except.ok v' →
      v.total_sol + v.invested_amount < U64 →
      v'.total_sol + v'.invested_amount = v.total_sol + v.invested_amount ∧
      v'.total_shares = v.total_shares) := by
  constructor
  · intro h hov
    unfold invest at h
    split at h
    · exact absurd h (by simp)
    · split at h
      · rename_i hle
        rw [Except.ok.injEq] at h
        subst h
        refine ⟨?_, rfl⟩
        simp only
        rw [Nat.mod_eq_of_lt hov]
        omega
      · exact absurd h (by simp)
  · intro h hov
    unfold finalize_strategy at h
    split at h
    · exact absurd h (by simp)
    · rw [Except.ok.injEq] at h
      subst h
      refine ⟨?_, rfl⟩
      simp only
      rw [Nat.mod_eq_of_lt hov]
      omega

/-- Witness for C8 at the state `total_shares = 10`, `total_sol = 100`,
`invested_amount = 50`: investing `30` gives `70 + 80 = 100 + 50` with
shares untouched, and finalizing gives `150 + 0 = 100 + 50` likewise. -/
theorem C8_amended_value_preservation_witness :
    ((70 + 80 : ℕ) = 100 + 50 ∧ (10 : ℕ) = 10) ∧
    ((150 + 0 : ℕ) = 100 + 50 ∧ (10 : ℕ) = 10) :=
  ⟨(C8_amended_value_preservation ⟨0, 10, 100, 50, 0⟩ ⟨0, 10, 70, 80, 0⟩
      0 0 30).1 rfl (by decide),
   (C8_amended_value_preservation ⟨0, 10, 100, 50, 0⟩ ⟨0, 10, 150, 0, 0⟩
      0 0 30).2 rfl (by decide)⟩

/-- C9 (counterexample): the claim states a second `invest` accumulates,
the new `invested_amount` equalling the old plus `sol_to_invest`.  With
`invested_amount = U64 - 1 > 0`, `total_sol = 1`, the admin investing `1`
succeeds but the unchecked `+=` wraps: the stored value is `0`, not
`(U64 - 1) + 1`. -/
theorem C9_counterexample :
    invest ⟨0, 0, 1, U64 - 1, 0⟩ 0 0 1 = Except.ok ⟨0, 0, 0, 0, 0⟩ ∧
    (0 : ℕ) ≠ (U64 - 1) + 1 := by
  refine ⟨rfl, by decide⟩

/-- C9 (amended): with `invested_amount > 0`, an `invest` by the admin with
`sol_to_invest ≤ total_sol` succeeds (there is no already-invested
rejection), and provided `invested_amount + sol_to_invest < 2 ^ 64` the new
`invested_amount` is the old plus `sol_to_invest` (in general the source
stores that sum wrapped modulo `2 ^ 64`). -/
theorem C9_amended_accumulate (v : VaultAccount) (caller pool_address x : ℕ)
    (hI : 0 < v.invested_amount) (hx : x ≤ v.total_sol)
    (hc : caller = v.admin) (hov : v.invested_amount + x < U64) :
    invest v caller pool_address x =
      Except.ok { v with
          total_sol := v.total_sol - x,
          invested_amount := v.invested_amount + x } := by
  unfold invest
  rw [if_neg (fun hne => hne hc.symm), if_pos hx, Nat.mod_eq_of_lt hov]

/-- Witness for C9: admin re-invests `30` on top of `50` already invested,
with `100` liquid, ending with `80` invested and `70` liquid. -/
theorem C9_amended_accumulate_witness :
    invest ⟨0, 0, 100, 50, 0⟩ 0 0 30 = Except.ok ⟨0, 0, 70, 80, 0⟩ :=
  C9_amended_accumulate ⟨0, 0, 100, 50, 0⟩ 0 0 30 (by decide) (by decide)
    rfl (by decide)

/-- C10: with `invested_amount = 0`, `finalize_strategy` called by the admin
succeeds and returns the ledger unchanged; composing it with itself gives
the same result, so it is idempotent there. -/
theorem C10_finalize_noop (v : VaultAccount) (caller : ℕ)
    (hI : v.invested_amount = 0) (hL : v.total_sol < U64)
    (hc : caller = v.admin) :
    finalize_strategy v caller = Except.ok v ∧
    (finalize_strategy v caller).bind
      (fun w => finalize_strategy w caller) = Except.ok v := by
  have h1 : finalize_strategy v caller = Except.ok v := by
    unfold finalize_strategy
    rw [if_neg (fun hne => hne hc.symm)]
    show Except.ok (VaultAccount.mk v.admin v.total_shares
        ((v.total_sol + v.invested_amount) % U64) 0 v.bump) = Except.ok v
    rw [hI, Nat.add_zero, Nat.mod_eq_of_lt hL, ← hI]
  refine ⟨h1, ?_⟩
  rw [h1]
  exact h1

/-- Witness for C10 at the vault `admin = 7`, `total_shares = 3`,
`total_sol = 100`, `invested_amount = 0`. -/
theorem C10_finalize_noop_witness :
    finalize_strategy ⟨7, 3, 100, 0, 1⟩ 7 = Except.ok ⟨7, 3, 100, 0, 1⟩ ∧
    (finalize_strategy ⟨7, 3, 100, 0, 1⟩ 7).bind
      (fun w => finalize_strategy w 7) = Except.ok ⟨7, 3, 100, 0, 1⟩ :=
  C10_finalize_noop ⟨7, 3, 100, 0, 1⟩ 7 rfl (by decide) rfl

